import Mathlib

/-!
Verification of the rusty-podmon reconciliation engine.

This file is a shallow embedding of the core of the monitor
(src/state.rs and src/monitor.rs): the per-container lifecycle state
machine, discovery, and the single check cycle
`ContainerMonitor::check_and_restart_containers`.

Modelling conventions:
- `tokio::time::Instant` is an abstract tick counter modelled as `Nat`;
  `Instant::now()` inside `record_success` / `record_failure` becomes an
  explicit `now : Nat` argument, and `time.elapsed()` becomes `now - t`
  (truncated subtraction; the Rust value is never negative since
  `Instant` is monotone, so the two agree on every reachable input).
- The `u32` counters `restart_count` and `consecutive_failures` are
  modelled as `Nat`: they are only ever incremented by one, a debug
  build of the source panics on overflow rather than wrapping, and no
  claim concerns values near `2^32`.
- `HashMap<String, ContainerState>` is modelled as an association list
  with the insert-replaces-existing-key semantics of `HashMap::insert`;
  `HashSet<String>` as `List String` with membership.
- The external world (config file, compose descriptors, `podman ps`,
  `podman-compose`) is an oracle record `Env`; each fallible call site
  reads its own field, keyed by descriptor path or container name where
  the source makes one call per path / per container.
-/

set_option autoImplicit false

namespace RustyPodmon

/-- Lifecycle record for one managed container (struct ContainerState in
src/state.rs). -/
structure ContainerState where
  compose_file : String
  last_restart : Option Nat
  restart_count : Nat
  consecutive_failures : Nat
  deriving DecidableEq

namespace ContainerState

/-- ContainerState::new — a fresh record with zeroed history. -/
def new (compose_file : String) : ContainerState :=
  { compose_file := compose_file
    last_restart := none
    restart_count := 0
    consecutive_failures := 0 }

/-- ContainerState::backoff_duration — 2^(min(consecutive_failures, 6))
seconds. -/
def backoff_duration (s : ContainerState) : Nat :=
  2 ^ (min s.consecutive_failures 6)

/-- ContainerState::is_in_backoff — true when a last-restart instant is
recorded and less than the backoff duration has elapsed since it. -/
def is_in_backoff (s : ContainerState) (now : Nat) : Bool :=
  match s.last_restart with
  | some t => now - t < s.backoff_duration
  | none => false

/-- ContainerState::record_success — bump restart_count, stamp now,
reset the failure streak. -/
def record_success (s : ContainerState) (now : Nat) : ContainerState :=
  { s with
    restart_count := s.restart_count + 1
    last_restart := some now
    consecutive_failures := 0 }

/-- ContainerState::record_failure — bump the failure streak; stamp now
only when no last-restart instant exists yet. -/
def record_failure (s : ContainerState) (now : Nat) : ContainerState :=
  { s with
    consecutive_failures := s.consecutive_failures + 1
    last_restart :=
      match s.last_restart with
      | none => some now
      | some t => some t }

end ContainerState

/-- Association-list lookup with first-match semantics, standing for
HashMap::get on the managed map (keys are unique in every map the
monitor builds). -/
def lookupContainer : List (String × ContainerState) → String → Option ContainerState
  | [], _ => none
  | p :: rest, n => if p.1 = n then some p.2 else lookupContainer rest n

/-- HashMap::insert semantics on the association list: drop any existing
entry for the key, then append the new binding. -/
def insertContainer (m : List (String × ContainerState)) (name : String)
    (s : ContainerState) : List (String × ContainerState) :=
  m.filter (fun p => p.1 != name) ++ [(name, s)]

/-- Point update of the entry at a key, standing for
HashMap::get_mut followed by a mutation (no-op when the key is absent). -/
def updateContainer (m : List (String × ContainerState)) (name : String)
    (f : ContainerState → ContainerState) : List (String × ContainerState) :=
  m.map (fun p => if p.1 = name then (p.1, f p.2) else p)

/-- struct MonitorState in src/state.rs. -/
structure MonitorState where
  managed_containers : List (String × ContainerState)
  running_containers : List String
  deriving DecidableEq

namespace MonitorState

/-- MonitorState::new. -/
def new : MonitorState :=
  { managed_containers := [], running_containers := [] }

/-- MonitorState::update_running — replace the observed-set snapshot. -/
def update_running (st : MonitorState) (running : List String) : MonitorState :=
  { st with running_containers := running }

/-- MonitorState::clear_managed. -/
def clear_managed (st : MonitorState) : MonitorState :=
  { st with managed_containers := [] }

/-- MonitorState::add_container — insert a fresh record for the name. -/
def add_container (st : MonitorState) (name : String) (compose_file : String) :
    MonitorState :=
  { st with
    managed_containers :=
      insertContainer st.managed_containers name (ContainerState.new compose_file) }

/-- MonitorState::is_running. -/
def is_running (st : MonitorState) (name : String) : Bool :=
  st.running_containers.contains name

end MonitorState

/-- struct Config in src/cli_config.rs (the fields the reconciler
reads). -/
structure Config where
  compose_files : List String
  check_interval_seconds : Nat
  status_interval_seconds : Nat
  max_consecutive_failures : Nat
  deriving DecidableEq

/-- Outcome of loading and parsing one compose descriptor
(path existence check plus ComposeParser::parse_containers in
src/parse.rs). -/
inductive DescriptorOutcome where
  | missing
  | malformed
  | parsed (names : List String)
  deriving DecidableEq

/-- Oracle for every external call the monitor makes during one cycle.
Fallible calls return Option (none = the Rust call returned Err); calls
the source makes once per descriptor path or once per container name
are keyed accordingly. -/
structure Env where
  loadConfig : Option Config
  descriptor : String → DescriptorOutcome
  runningQuery : Option (List String)
  restartOk : String → Bool
  verifyQuery : String → Option (List String)
  timeOf : String → Nat

/-- ContainerMonitor::discover_containers — clear the managed map, then
for each configured descriptor path: skip it when missing or malformed
(logged in the source), otherwise insert a fresh record per declared
container. Always returns Ok in the source. -/
def discover_containers (cfg : Config) (env : Env) (st : MonitorState) : MonitorState :=
  cfg.compose_files.foldl
    (fun acc path =>
      match env.descriptor path with
      | DescriptorOutcome.parsed names =>
          names.foldl (fun a n => a.add_container n path) acc
      | _ => acc)
    st.clear_managed

/-- ContainerMonitor::should_restart_container — a container already
observed down is selected for a restart attempt unless its failure
streak reached the configured maximum or it is still in backoff. -/
def should_restart_container (maxFailures : Nat) (now : Nat) (s : ContainerState) : Bool :=
  if s.consecutive_failures ≥ maxFailures then false
  else if s.is_in_backoff now then false
  else true

/-- Result of one check cycle: the monitor fields it may have replaced,
the container names a restart invocation was issued for, and whether the
cycle returned Err (the source returns Result of unit and mutates
self in place; failed = true is the Err return). -/
structure CycleResult where
  config : Config
  state : MonitorState
  attempts : List String
  failed : Bool
  deriving DecidableEq

/-- One iteration of the restart loop body for a selected container:
restart invocation failed => record_failure; invocation succeeded and
the verification re-query succeeded => record_success when the name is
in the re-queried set, else record_failure; invocation succeeded but
the re-query failed => no record call at all. -/
def applyAttempt (env : Env) (m : List (String × ContainerState)) (name : String) :
    List (String × ContainerState) :=
  if env.restartOk name then
    match env.verifyQuery name with
    | none => m
    | some running =>
        if running.contains name then
          updateContainer m name (fun s => s.record_success (env.timeOf name))
        else
          updateContainer m name (fun s => s.record_failure (env.timeOf name))
  else
    updateContainer m name (fun s => s.record_failure (env.timeOf name))

/-- The tail of ContainerMonitor::check_and_restart_containers after the
config-reload step: empty-set early return, runtime query (Err propagates
with no state change), observed-set swap, selection of down-and-eligible
containers, and the restart loop. -/
def checkBody (cfg : Config) (env : Env) (st : MonitorState) (now : Nat) : CycleResult :=
  if st.managed_containers.isEmpty then
    { config := cfg, state := st, attempts := [], failed := false }
  else
    match env.runningQuery with
    | none => { config := cfg, state := st, attempts := [], failed := true }
    | some running =>
        let st1 := st.update_running running
        let selected := st1.managed_containers.filter
          (fun p => !(st1.is_running p.1) &&
            should_restart_container cfg.max_consecutive_failures now p.2)
        let managed2 := selected.foldl (fun m p => applyAttempt env m p.1) st1.managed_containers
        { config := cfg
          state := { st1 with managed_containers := managed2 }
          attempts := selected.map Prod.fst
          failed := false }

/-- ContainerMonitor::check_and_restart_containers — reload the config
file; when it loads and its compose-file list differs from the active
one, swap it in, rediscover, and return early with no restart pass;
otherwise (same list, or reload failure, which the source only logs)
fall through to the check body under the previous config. -/
def check_and_restart_containers (cfg : Config) (env : Env) (st : MonitorState)
    (now : Nat) : CycleResult :=
  match env.loadConfig with
  | some newCfg =>
      if newCfg.compose_files ≠ cfg.compose_files then
        { config := newCfg
          state := discover_containers newCfg env st
          attempts := []
          failed := false }
      else
        checkBody cfg env st now
  | none => checkBody cfg env st now

/-- Abbreviation for the list of down-and-eligible containers a cycle
selects once the observed set is the given running list. -/
def selectedOf (cfg : Config) (st : MonitorState) (now : Nat) (running : List String) :
    List (String × ContainerState) :=
  st.managed_containers.filter
    (fun p => !(running.contains p.1) &&
      should_restart_container cfg.max_consecutive_failures now p.2)

/-- Every record in the map has the zeroed history of a record built by
ContainerState::new. -/
def FreshRecords (m : List (String × ContainerState)) : Prop :=
  ∀ p, p ∈ m →
    p.2.consecutive_failures = 0 ∧ p.2.restart_count = 0 ∧ p.2.last_restart = none

/-! ### Concrete fixtures used by the witness and counterexample
theorems -/

/-- Fixture: a basic one-descriptor configuration with the source
defaults for the intervals and the failure threshold. -/
def c5cfg : Config :=
  { compose_files := ["/a/compose.yml"]
    check_interval_seconds := 30
    status_interval_seconds := 300
    max_consecutive_failures := 5 }

/-- Fixture: the same configuration with one more descriptor path. -/
def c5cfgNew : Config :=
  { c5cfg with compose_files := ["/a/compose.yml", "/b/compose.yml"] }

/-- Fixture: a monitor managing one container that is not observed
running. -/
def c5st : MonitorState :=
  { managed_containers :=
      [("web", { compose_file := "/a/compose.yml", last_restart := none,
                 restart_count := 0, consecutive_failures := 0 })]
    running_containers := [] }

/-- Fixture: an oracle whose config reload returns the changed
descriptor list. -/
def c5env : Env :=
  { loadConfig := some c5cfgNew
    descriptor := fun _ => DescriptorOutcome.parsed ["web", "db"]
    runningQuery := some []
    restartOk := fun _ => true
    verifyQuery := fun _ => some []
    timeOf := fun _ => 0 }

/-- Fixture: a monitor with one managed container carrying history and a
previous observed-set snapshot. -/
def c6st : MonitorState :=
  { managed_containers :=
      [("web", { compose_file := "/a/compose.yml", last_restart := some 40,
                 restart_count := 2, consecutive_failures := 1 })]
    running_containers := ["db"] }

/-- Fixture: an oracle whose runtime query fails. -/
def c6env : Env :=
  { loadConfig := none
    descriptor := fun _ => DescriptorOutcome.parsed ["web"]
    runningQuery := none
    restartOk := fun _ => true
    verifyQuery := fun _ => some []
    timeOf := fun _ => 0 }

/-- Fixture: the active configuration for the reload counterexample. -/
def c8cfg : Config :=
  { compose_files := ["/a/compose.yml"]
    check_interval_seconds := 30
    status_interval_seconds := 300
    max_consecutive_failures := 5 }

/-- Fixture: a reloaded configuration with the same descriptor paths but
every other value changed. -/
def c8cfgNew : Config :=
  { compose_files := ["/a/compose.yml"]
    check_interval_seconds := 60
    status_interval_seconds := 600
    max_consecutive_failures := 3 }

/-- Fixture: one managed container with 4 consecutive failures, below
the active threshold 5 but at or above the reloaded threshold 3. -/
def c8st : MonitorState :=
  { managed_containers :=
      [("web", { compose_file := "/a/compose.yml", last_restart := none,
                 restart_count := 0, consecutive_failures := 4 })]
    running_containers := [] }

/-- Fixture: an oracle returning the same-paths reloaded configuration
and an empty running set. -/
def c8env : Env :=
  { loadConfig := some c8cfgNew
    descriptor := fun _ => DescriptorOutcome.malformed
    runningQuery := some []
    restartOk := fun _ => false
    verifyQuery := fun _ => none
    timeOf := fun _ => 0 }

/-- Fixture: a configuration whose threshold is zero, the edge case for
the exhaustion claim. -/
def c1cfg : Config :=
  { compose_files := ["/a/compose.yml"]
    check_interval_seconds := 30
    status_interval_seconds := 300
    max_consecutive_failures := 0 }

/-- Fixture: a monitor whose one record is exhausted for threshold 0. -/
def c1st : MonitorState :=
  { managed_containers :=
      [("web", { compose_file := "/a/compose.yml", last_restart := some 10,
                 restart_count := 0, consecutive_failures := 3 })]
    running_containers := [] }

/-- Fixture: an oracle whose sole descriptor declares the container
again, so rediscovery rebuilds a fresh record for it. -/
def c1env : Env :=
  { loadConfig := none
    descriptor := fun _ => DescriptorOutcome.parsed ["web"]
    runningQuery := some []
    restartOk := fun _ => true
    verifyQuery := fun _ => some ["web"]
    timeOf := fun _ => 50 }

/-- Fixture: a three-descriptor configuration whose middle descriptor is
malformed. -/
def c7cfg : Config :=
  { compose_files := ["/a/compose.yml", "/bad/compose.yml", "/c/compose.yml"]
    check_interval_seconds := 30
    status_interval_seconds := 300
    max_consecutive_failures := 5 }

/-- Fixture: descriptor oracle where the first and last descriptors
parse and the middle one is malformed. -/
def c7env : Env :=
  { loadConfig := none
    descriptor := fun p =>
      if p = "/a/compose.yml" then DescriptorOutcome.parsed ["alpha"]
      else if p = "/c/compose.yml" then DescriptorOutcome.parsed ["gamma", "delta"]
      else DescriptorOutcome.malformed
    runningQuery := some []
    restartOk := fun _ => true
    verifyQuery := fun _ => some []
    timeOf := fun _ => 0 }

/-- Fixture: a record with a zero failure streak whose last restart was
recorded at the current instant (for example by the startup-recovery
pass an instant before the first check tick). -/
def c9st : MonitorState :=
  { managed_containers :=
      [("web", { compose_file := "/a/compose.yml", last_restart := some 100,
                 restart_count := 1, consecutive_failures := 0 })]
    running_containers := [] }

/-- Fixture: an oracle observing nothing running. -/
def c9env : Env :=
  { loadConfig := none
    descriptor := fun _ => DescriptorOutcome.malformed
    runningQuery := some []
    restartOk := fun _ => true
    verifyQuery := fun _ => some ["web"]
    timeOf := fun _ => 100 }

/-- Fixture: a monitor managing two down containers, both eligible. -/
def c10st : MonitorState :=
  { managed_containers :=
      [("aaa", { compose_file := "/a/compose.yml", last_restart := none,
                 restart_count := 0, consecutive_failures := 0 }),
       ("bbb", { compose_file := "/b/compose.yml", last_restart := none,
                 restart_count := 0, consecutive_failures := 0 })]
    running_containers := [] }

/-- Fixture: both restart invocations succeed, but the verification
re-query fails for the first container and succeeds for the second. -/
def c10env : Env :=
  { loadConfig := none
    descriptor := fun _ => DescriptorOutcome.malformed
    runningQuery := some []
    restartOk := fun _ => true
    verifyQuery := fun x => if x = "aaa" then none else some ["bbb"]
    timeOf := fun _ => 100 }

/-! ## Helper lemmas on the association-list map -/

theorem lookupContainer_append_left (m1 m2 : List (String × ContainerState))
    (n : String) (cs : ContainerState) (h : lookupContainer m1 n = some cs) :
    lookupContainer (m1 ++ m2) n = some cs := by
  induction m1 with
  | nil => simp [lookupContainer] at h
  | cons p rest ih =>
      by_cases hp : p.1 = n
      · simp only [lookupContainer, if_pos hp] at h
        simpa [lookupContainer, hp] using h
      · simp only [lookupContainer, if_neg hp] at h
        simpa [lookupContainer, hp] using ih h

theorem lookupContainer_append_none (m1 m2 : List (String × ContainerState))
    (n : String) (h : lookupContainer m1 n = none) :
    lookupContainer (m1 ++ m2) n = lookupContainer m2 n := by
  induction m1 with
  | nil => rfl
  | cons p rest ih =>
      by_cases hp : p.1 = n
      · simp [lookupContainer, hp] at h
      · simp only [lookupContainer, if_neg hp] at h
        simpa [lookupContainer, hp] using ih h

theorem lookupContainer_filter_self (m : List (String × ContainerState))
    (name : String) :
    lookupContainer (m.filter (fun p => p.1 != name)) name = none := by
  induction m with
  | nil => rfl
  | cons p rest ih =>
      by_cases hp : p.1 = name
      · simpa [List.filter_cons, hp] using ih
      · simpa [List.filter_cons, hp, lookupContainer] using ih

theorem lookupContainer_filter_other (m : List (String × ContainerState))
    (n name : String) (h : n ≠ name) :
    lookupContainer (m.filter (fun p => p.1 != name)) n = lookupContainer m n := by
  have h2 : name ≠ n := Ne.symm h
  induction m with
  | nil => rfl
  | cons p rest ih =>
      by_cases hp : p.1 = name
      · simp [List.filter_cons, hp, lookupContainer, h, h2, ih]
      · by_cases hn : p.1 = n
        · simp [List.filter_cons, hp, lookupContainer, hn, h, h2]
        · simp [List.filter_cons, hp, lookupContainer, hn, ih]

theorem lookupContainer_insert_self (m : List (String × ContainerState))
    (name : String) (s : ContainerState) :
    lookupContainer (insertContainer m name s) name = some s := by
  unfold insertContainer
  rw [lookupContainer_append_none _ _ _ (lookupContainer_filter_self m name)]
  simp [lookupContainer]

theorem lookupContainer_insert_other (m : List (String × ContainerState))
    (n name : String) (s : ContainerState) (h : n ≠ name) :
    lookupContainer (insertContainer m name s) n = lookupContainer m n := by
  unfold insertContainer
  have hf := lookupContainer_filter_other m n name h
  have h2 : name ≠ n := Ne.symm h
  cases hm : lookupContainer m n with
  | some cs => exact lookupContainer_append_left _ _ _ _ (hf.trans hm)
  | none =>
      rw [lookupContainer_append_none _ _ _ (hf.trans hm)]
      simp [lookupContainer, h2]

theorem mem_of_lookupContainer (m : List (String × ContainerState))
    (n : String) (cs : ContainerState) (h : lookupContainer m n = some cs) :
    (n, cs) ∈ m := by
  induction m with
  | nil => simp [lookupContainer] at h
  | cons p rest ih =>
      by_cases hp : p.1 = n
      · simp only [lookupContainer, if_pos hp, Option.some.injEq] at h
        have : p = (n, cs) := by
          cases p
          simp_all
        rw [← this]
        exact List.mem_cons_self p rest
      · simp only [lookupContainer, if_neg hp] at h
        exact List.mem_cons_of_mem p (ih h)

theorem lookupContainer_updateContainer_other (m : List (String × ContainerState))
    (n name : String) (f : ContainerState → ContainerState) (h : name ≠ n) :
    lookupContainer (updateContainer m name f) n = lookupContainer m n := by
  have h3 : n ≠ name := Ne.symm h
  induction m with
  | nil => rfl
  | cons p rest ih =>
      simp only [updateContainer] at ih
      by_cases hp : p.1 = name
      · simp [updateContainer, lookupContainer, hp, h, h3, ih]
      · by_cases hn : p.1 = n
        · simp [updateContainer, lookupContainer, hp, hn, h, h3]
        · simp [updateContainer, lookupContainer, hp, hn, ih]

/-! ## Helper lemmas on discovery -/

theorem freshRecords_insert (m : List (String × ContainerState))
    (name path : String) (h : FreshRecords m) :
    FreshRecords (insertContainer m name (ContainerState.new path)) := by
  intro p hp
  unfold insertContainer at hp
  rcases List.mem_append.mp hp with h1 | h2
  · exact h p (List.mem_of_mem_filter h1)
  · rw [List.mem_singleton.mp h2]
    exact ⟨rfl, rfl, rfl⟩

theorem freshRecords_names_foldl (names : List String) (path : String) :
    ∀ st : MonitorState, FreshRecords st.managed_containers →
      FreshRecords
        ((names.foldl (fun a n => a.add_container n path) st)).managed_containers := by
  induction names with
  | nil => intro st h; exact h
  | cons x rest ih =>
      intro st h
      rw [List.foldl_cons]
      exact ih _ (freshRecords_insert _ x path h)

theorem freshRecords_files_foldl (files : List String) (env : Env) :
    ∀ st : MonitorState, FreshRecords st.managed_containers →
      FreshRecords
        ((files.foldl
          (fun acc path =>
            match env.descriptor path with
            | DescriptorOutcome.parsed names =>
                names.foldl (fun a n => a.add_container n path) acc
            | _ => acc) st)).managed_containers := by
  induction files with
  | nil => intro st h; exact h
  | cons f rest ih =>
      intro st h
      rw [List.foldl_cons]
      cases hd : env.descriptor f with
      | parsed names => exact ih _ (freshRecords_names_foldl names f st h)
      | missing => exact ih _ h
      | malformed => exact ih _ h

theorem freshRecords_discover (cfg : Config) (env : Env) (st : MonitorState) :
    FreshRecords (discover_containers cfg env st).managed_containers := by
  unfold discover_containers
  apply freshRecords_files_foldl
  intro p hp
  simp [MonitorState.clear_managed] at hp

theorem lookup_isSome_add (st : MonitorState) (n name path : String)
    (h : (lookupContainer st.managed_containers n).isSome = true) :
    (lookupContainer (st.add_container name path).managed_containers n).isSome = true := by
  show (lookupContainer
    (insertContainer st.managed_containers name (ContainerState.new path)) n).isSome = true
  by_cases hn : n = name
  · rw [hn, lookupContainer_insert_self]
    rfl
  · rw [lookupContainer_insert_other _ _ _ _ hn]
    exact h

theorem lookup_isSome_names_foldl (names : List String) (path : String) (n : String) :
    ∀ st : MonitorState,
      (lookupContainer st.managed_containers n).isSome = true →
      (lookupContainer
        ((names.foldl (fun a x => a.add_container x path) st)).managed_containers n).isSome
        = true := by
  induction names with
  | nil => intro st h; exact h
  | cons x rest ih =>
      intro st h
      rw [List.foldl_cons]
      exact ih _ (lookup_isSome_add st n x path h)

theorem lookup_isSome_names_foldl_mem (names : List String) (path : String) (n : String)
    (hmem : n ∈ names) :
    ∀ st : MonitorState,
      (lookupContainer
        ((names.foldl (fun a x => a.add_container x path) st)).managed_containers n).isSome
        = true := by
  induction names with
  | nil => cases hmem
  | cons x rest ih =>
      intro st
      rw [List.foldl_cons]
      rcases List.mem_cons.mp hmem with h1 | h2
      · apply lookup_isSome_names_foldl
        rw [h1]
        show (lookupContainer
          (insertContainer st.managed_containers x (ContainerState.new path)) x).isSome = true
        rw [lookupContainer_insert_self]
        rfl
      · exact ih h2 _

theorem lookup_isSome_files_foldl (files : List String) (env : Env) (n : String) :
    ∀ st : MonitorState,
      (lookupContainer st.managed_containers n).isSome = true →
      (lookupContainer
        ((files.foldl
          (fun acc path =>
            match env.descriptor path with
            | DescriptorOutcome.parsed names =>
                names.foldl (fun a x => a.add_container x path) acc
            | _ => acc) st)).managed_containers n).isSome = true := by
  induction files with
  | nil => intro st h; exact h
  | cons f rest ih =>
      intro st h
      rw [List.foldl_cons]
      cases hd : env.descriptor f with
      | parsed names => exact ih _ (lookup_isSome_names_foldl names f n st h)
      | missing => exact ih _ h
      | malformed => exact ih _ h

/-! ## Helper lemmas on the check cycle -/

/-- Helper: checkBody never reads the loadConfig field of the oracle, so
replacing that field leaves it unchanged. -/
theorem checkBody_loadConfig_irrel (cfg : Config) (env : Env) (st : MonitorState)
    (now : Nat) (x : Option Config) :
    checkBody cfg { env with loadConfig := x } st now = checkBody cfg env st now := by
  cases env
  rfl

/-- Helper: when the reload fails or keeps the descriptor-path list, the
cycle is the check body. -/
theorem check_eq_checkBody (cfg : Config) (env : Env) (st : MonitorState) (now : Nat)
    (hload : ∀ c, env.loadConfig = some c → c.compose_files = cfg.compose_files) :
    check_and_restart_containers cfg env st now = checkBody cfg env st now := by
  cases hl : env.loadConfig with
  | none =>
      unfold check_and_restart_containers
      rw [hl]
  | some c =>
      unfold check_and_restart_containers
      rw [hl]
      simp [hload c hl]

/-- Helper: the shape of the check body when the managed set is nonempty
and the runtime query succeeds. -/
theorem checkBody_eq_of_query (cfg : Config) (env : Env) (st : MonitorState) (now : Nat)
    (running : List String)
    (hq : env.runningQuery = some running)
    (hne : st.managed_containers ≠ []) :
    checkBody cfg env st now =
      { config := cfg
        state :=
          { managed_containers :=
              (selectedOf cfg st now running).foldl (fun m p => applyAttempt env m p.1)
                st.managed_containers
            running_containers := running }
        attempts := (selectedOf cfg st now running).map Prod.fst
        failed := false } := by
  unfold checkBody
  rw [hq]
  simp [hne, selectedOf, MonitorState.update_running, MonitorState.is_running]

theorem applyAttempt_skip (env : Env) (m : List (String × ContainerState))
    (name : String) (h1 : env.restartOk name = true)
    (h2 : env.verifyQuery name = none) :
    applyAttempt env m name = m := by
  simp [applyAttempt, h1, h2]

theorem lookupContainer_applyAttempt_other (env : Env)
    (m : List (String × ContainerState)) (name n : String) (h : name ≠ n) :
    lookupContainer (applyAttempt env m name) n = lookupContainer m n := by
  unfold applyAttempt
  by_cases hr : env.restartOk name = true
  · rw [if_pos hr]
    cases hv : env.verifyQuery name with
    | none => rfl
    | some r =>
        by_cases hc : r.contains name = true
        · simp only [hc, if_pos]
          exact lookupContainer_updateContainer_other m n name _ h
        · simp only [hc, if_neg, Bool.false_eq_true, not_false_iff]
          exact lookupContainer_updateContainer_other m n name _ h
  · rw [if_neg hr]
    exact lookupContainer_updateContainer_other m n name _ h

theorem lookupContainer_foldl_applyAttempt (env : Env) (n : String)
    (h1 : env.restartOk n = true) (h2 : env.verifyQuery n = none)
    (l : List (String × ContainerState)) :
    ∀ m : List (String × ContainerState),
      lookupContainer (l.foldl (fun m p => applyAttempt env m p.1) m) n =
        lookupContainer m n := by
  induction l with
  | nil => intro m; rfl
  | cons p rest ih =>
      intro m
      rw [List.foldl_cons, ih]
      by_cases hp : p.1 = n
      · rw [hp, applyAttempt_skip env m n h1 h2]
      · exact lookupContainer_applyAttempt_other env m p.1 n hp

/-- Helper: a managed container absent from the observed set whose state
passes should_restart_container is in the selected list's name
projection. -/
theorem mem_selectedOf_names (cfg : Config) (st : MonitorState) (now : Nat)
    (running : List String) (n : String) (s : ContainerState)
    (hmem : (n, s) ∈ st.managed_containers)
    (hdown : n ∉ running)
    (hsr : should_restart_container cfg.max_consecutive_failures now s = true) :
    n ∈ (selectedOf cfg st now running).map Prod.fst := by
  have hrun : running.contains n = false := by
    cases hcontains : running.contains n with
    | false => rfl
    | true => exact absurd (List.mem_of_elem_eq_true hcontains) hdown
  have hsel : (n, s) ∈ selectedOf cfg st now running := by
    apply List.mem_filter.mpr
    exact ⟨hmem, by simp [hrun, hsr, hdown]⟩
  exact List.mem_map.mpr ⟨(n, s), hsel, rfl⟩

/-! ## C1: exhaustion blocks restarts until rediscovery -/

/-- C1 counterexample: with max_consecutive_failures = 0 the claim
fails. The managed record for web has 3 >= 0 consecutive failures, so it
is exhausted in the claim's sense; rediscovery rebuilds web's record
fresh with consecutive_failures = 0, yet the fresh record is still not
selected (0 >= 0), so it is not "immediately eligible again" as the
claim requires. -/
theorem exhausted_until_rediscovery_counterexample :
    c1cfg.max_consecutive_failures = 0 ∧
    (lookupContainer c1st.managed_containers "web").map
      ContainerState.consecutive_failures = some 3 ∧
    lookupContainer (discover_containers c1cfg c1env c1st).managed_containers "web" =
      some (ContainerState.new "/a/compose.yml") ∧
    should_restart_container c1cfg.max_consecutive_failures 50
      (ContainerState.new "/a/compose.yml") = false := by
  decide

/-- C1 amended: a record whose consecutive_failures is at least the
configured max_consecutive_failures is never selected for a restart
attempt whatever the current time; every record produced by a
rediscovery is fresh (consecutive_failures = 0, restart_count = 0, no
last-restart instant); and provided the configured threshold is
positive, such a fresh record is immediately selectable again. -/
theorem exhausted_until_rediscovery (maxF now : Nat) (s : ContainerState)
    (cfg : Config) (env : Env) (st : MonitorState) (p n : String)
    (cs : ContainerState) :
    (s.consecutive_failures ≥ maxF → should_restart_container maxF now s = false) ∧
    (lookupContainer (discover_containers cfg env st).managed_containers n = some cs →
      cs.consecutive_failures = 0 ∧ cs.restart_count = 0 ∧ cs.last_restart = none) ∧
    (0 < maxF → should_restart_container maxF now (ContainerState.new p) = true) := by
  refine ⟨?_, ?_, ?_⟩
  · intro h
    simp [should_restart_container, h]
  · intro h
    exact freshRecords_discover cfg env st (n, cs)
      (mem_of_lookupContainer _ n cs h)
  · intro h
    have h1 : ¬ ((ContainerState.new p).consecutive_failures ≥ maxF) := by
      simp [ContainerState.new]
      omega
    have h2 : (ContainerState.new p).is_in_backoff now = false := rfl
    simp [should_restart_container, h1, h2]

theorem exhausted_until_rediscovery_witness :
    should_restart_container 5 1000000
      { compose_file := "/a/compose.yml", last_restart := some 0,
        restart_count := 0, consecutive_failures := 7 } = false ∧
    ((lookupContainer (discover_containers c1cfg c1env c1st).managed_containers
        "web" = some (ContainerState.new "/a/compose.yml")) →
      (ContainerState.new "/a/compose.yml").consecutive_failures = 0) ∧
    should_restart_container 5 0 (ContainerState.new "/a/compose.yml") = true :=
  ⟨(exhausted_until_rediscovery 5 1000000
      { compose_file := "/a/compose.yml", last_restart := some 0,
        restart_count := 0, consecutive_failures := 7 }
      c1cfg c1env c1st "/a/compose.yml" "web"
      (ContainerState.new "/a/compose.yml")).1 (by decide),
   fun h => ((exhausted_until_rediscovery 5 1000000
      (ContainerState.new "/a/compose.yml")
      c1cfg c1env c1st "/a/compose.yml" "web"
      (ContainerState.new "/a/compose.yml")).2.1 h).1,
   (exhausted_until_rediscovery 5 0
      (ContainerState.new "/a/compose.yml")
      c1cfg c1env c1st "/a/compose.yml" "web"
      (ContainerState.new "/a/compose.yml")).2.2 (by decide)⟩

/-! ## C2, C3, C4: the lifecycle state machine -/

/-- C2: backoff_duration equals 2^min(consecutive_failures, 6) seconds
exactly; as a function of the failure count it is monotonically
non-decreasing, and it equals 64 seconds for every count of 6 or more. -/
theorem backoff_duration_formula_monotone_capped (s t : ContainerState) :
    s.backoff_duration = 2 ^ (min s.consecutive_failures 6) ∧
    (s.consecutive_failures ≤ t.consecutive_failures →
      s.backoff_duration ≤ t.backoff_duration) ∧
    (6 ≤ s.consecutive_failures → s.backoff_duration = 64) := by
  refine ⟨rfl, ?_, ?_⟩
  · intro h
    exact Nat.pow_le_pow_right (by norm_num)
      (min_le_min h le_rfl)
  · intro h
    unfold ContainerState.backoff_duration
    rw [Nat.min_eq_right h]
    norm_num

theorem backoff_duration_formula_monotone_capped_witness :
    ContainerState.backoff_duration
        { compose_file := "w", last_restart := none,
          restart_count := 0, consecutive_failures := 3 } ≤
      ContainerState.backoff_duration
        { compose_file := "w", last_restart := none,
          restart_count := 0, consecutive_failures := 9 } ∧
    ContainerState.backoff_duration
        { compose_file := "w", last_restart := none,
          restart_count := 0, consecutive_failures := 9 } = 64 :=
  ⟨(backoff_duration_formula_monotone_capped
      { compose_file := "w", last_restart := none,
        restart_count := 0, consecutive_failures := 3 }
      { compose_file := "w", last_restart := none,
        restart_count := 0, consecutive_failures := 9 }).2.1 (by decide),
   (backoff_duration_formula_monotone_capped
      { compose_file := "w", last_restart := none,
        restart_count := 0, consecutive_failures := 9 }
      { compose_file := "w", last_restart := none,
        restart_count := 0, consecutive_failures := 9 }).2.2 (by decide)⟩

/-- C3: record_success zeroes consecutive_failures and increases
restart_count by exactly 1; record_failure increases
consecutive_failures by exactly 1 and leaves restart_count unchanged,
for every record state. -/
theorem record_success_failure_counters (s : ContainerState) (now : Nat) :
    (s.record_success now).consecutive_failures = 0 ∧
    (s.record_success now).restart_count = s.restart_count + 1 ∧
    (s.record_failure now).consecutive_failures = s.consecutive_failures + 1 ∧
    (s.record_failure now).restart_count = s.restart_count :=
  ⟨rfl, rfl, rfl, rfl⟩

/-- C4: record_failure leaves last_restart unchanged whenever it is
already set and sets it to the call time when unset; record_success
unconditionally sets last_restart to the call time. -/
theorem record_timestamp_asymmetry (s : ContainerState) (now : Nat) :
    (∀ t, s.last_restart = some t → (s.record_failure now).last_restart = some t) ∧
    (s.last_restart = none → (s.record_failure now).last_restart = some now) ∧
    (s.record_success now).last_restart = some now := by
  refine ⟨?_, ?_, rfl⟩
  · intro t ht
    simp [ContainerState.record_failure, ht]
  · intro h
    simp [ContainerState.record_failure, h]

theorem record_timestamp_asymmetry_witness :
    (ContainerState.record_failure
        { compose_file := "w", last_restart := some 5,
          restart_count := 2, consecutive_failures := 1 } 9).last_restart = some 5 ∧
    (ContainerState.record_failure
        { compose_file := "w", last_restart := none,
          restart_count := 0, consecutive_failures := 0 } 9).last_restart = some 9 :=
  ⟨(record_timestamp_asymmetry
      { compose_file := "w", last_restart := some 5,
        restart_count := 2, consecutive_failures := 1 } 9).1 5 rfl,
   (record_timestamp_asymmetry
      { compose_file := "w", last_restart := none,
        restart_count := 0, consecutive_failures := 0 } 9).2.1 rfl⟩

/-! ## C5, C6, C8: the check cycle around the config reload and the
runtime query -/

/-- C5: when the reloaded configuration loads and its descriptor-path
list differs from the active one, the cycle swaps in the new
configuration, rediscovers, and returns successfully with no restart
invocation at all, whatever the containers' eligibility. -/
theorem config_change_preempts_check (cfg newCfg : Config) (env : Env)
    (st : MonitorState) (now : Nat)
    (hload : env.loadConfig = some newCfg)
    (hdiff : newCfg.compose_files ≠ cfg.compose_files) :
    check_and_restart_containers cfg env st now =
      { config := newCfg
        state := discover_containers newCfg env st
        attempts := []
        failed := false } := by
  unfold check_and_restart_containers
  rw [hload]
  simp [hdiff]

theorem config_change_preempts_check_witness :
    check_and_restart_containers c5cfg c5env c5st 0 =
      { config := c5cfgNew
        state := discover_containers c5cfgNew c5env c5st
        attempts := []
        failed := false } :=
  config_change_preempts_check c5cfg c5cfgNew c5env c5st 0 rfl (by decide)

/-- C6: when the reload does not preempt the cycle (it failed or kept
the same descriptor-path list), the managed set is nonempty, and the
runtime query for the observed running set fails, the cycle returns an
error and the monitor fields are returned exactly as they were: every
record and the previous observed-set snapshot untouched, no restart
invocation issued, and the active configuration kept. -/
theorem runtime_query_failure_atomic (cfg : Config) (env : Env) (st : MonitorState)
    (now : Nat)
    (hload : ∀ c, env.loadConfig = some c → c.compose_files = cfg.compose_files)
    (hne : st.managed_containers ≠ [])
    (hq : env.runningQuery = none) :
    check_and_restart_containers cfg env st now =
      { config := cfg, state := st, attempts := [], failed := true } := by
  rw [check_eq_checkBody cfg env st now hload]
  unfold checkBody
  rw [hq]
  simp [hne]

theorem runtime_query_failure_atomic_witness :
    check_and_restart_containers c5cfg c6env c6st 100 =
      { config := c5cfg, state := c6st, attempts := [], failed := true } :=
  runtime_query_failure_atomic c5cfg c6env c6st 100
    (fun c hc => by simp [c6env] at hc) (by decide) rfl

/-- C8 counterexample: the reloaded configuration keeps the same
descriptor-path list but raises the check interval to 60, the status
interval to 600, and lowers max_consecutive_failures to 3. The claim
says these values take effect on that load; in the code the swap
`self.config = new_config` only happens in the differing-path branch,
so the new values are discarded: the cycle still runs with threshold 5
and selects for restart a container with 4 consecutive failures, which
the reloaded threshold 3 would have exhausted. -/
theorem reload_other_values_counterexample :
    c8cfgNew.compose_files = c8cfg.compose_files ∧
    c8cfgNew.max_consecutive_failures = 3 ∧
    (check_and_restart_containers c8cfg c8env c8st 100).config = c8cfg ∧
    (check_and_restart_containers c8cfg c8env c8st 100).attempts = ["web"] := by
  decide

/-- C8 amended: when the configuration file reloads and its
descriptor-path list equals the active one, the reloaded configuration
is discarded entirely — the cycle behaves exactly as if the reload had
failed, so the changed values (intervals, max-consecutive-failures
threshold) do not take effect and no rediscovery is triggered. -/
theorem reload_same_paths_discarded (cfg newCfg : Config) (env : Env)
    (st : MonitorState) (now : Nat)
    (hload : env.loadConfig = some newCfg)
    (hsame : newCfg.compose_files = cfg.compose_files) :
    check_and_restart_containers cfg env st now =
      check_and_restart_containers cfg { env with loadConfig := none } st now := by
  calc check_and_restart_containers cfg env st now
      = checkBody cfg env st now := by
        unfold check_and_restart_containers
        rw [hload]
        simp [hsame]
    _ = checkBody cfg { env with loadConfig := none } st now :=
        (checkBody_loadConfig_irrel cfg env st now none).symm
    _ = check_and_restart_containers cfg { env with loadConfig := none } st now := rfl

theorem reload_same_paths_discarded_witness :
    check_and_restart_containers c8cfg c8env c8st 100 =
      check_and_restart_containers c8cfg { c8env with loadConfig := none } c8st 100 :=
  reload_same_paths_discarded c8cfg c8cfgNew c8env c8st 100 rfl (by decide)

/-! ## C7: discovery isolates bad descriptors -/

/-- C7: for every configured descriptor path whose load and parse
succeed, every container it declares is present in the managed set
discovery produces, no matter how any other descriptor fails (missing
file or malformed content): one bad descriptor never aborts discovery of
the remaining ones. -/
theorem discovery_isolates_bad_descriptors (cfg : Config) (env : Env)
    (st : MonitorState) (path n : String) (names : List String)
    (hpath : path ∈ cfg.compose_files)
    (hparsed : env.descriptor path = DescriptorOutcome.parsed names)
    (hn : n ∈ names) :
    (lookupContainer (discover_containers cfg env st).managed_containers n).isSome
      = true := by
  obtain ⟨l1, l2, hsplit⟩ := List.append_of_mem hpath
  unfold discover_containers
  rw [hsplit, List.foldl_append, List.foldl_cons]
  apply lookup_isSome_files_foldl
  rw [hparsed]
  exact lookup_isSome_names_foldl_mem names path n hn _

theorem discovery_isolates_bad_descriptors_witness :
    (lookupContainer
      (discover_containers c7cfg c7env MonitorState.new).managed_containers
      "alpha").isSome = true ∧
    (lookupContainer
      (discover_containers c7cfg c7env MonitorState.new).managed_containers
      "gamma").isSome = true :=
  ⟨discovery_isolates_bad_descriptors c7cfg c7env MonitorState.new
      "/a/compose.yml" "alpha" ["alpha"] (by decide) (by decide) (by decide),
   discovery_isolates_bad_descriptors c7cfg c7env MonitorState.new
      "/c/compose.yml" "gamma" ["gamma", "delta"] (by decide) (by decide) (by decide)⟩

/-! ## C9: eligibility of healthy containers -/

/-- C9 counterexample: a record with consecutive_failures = 0, absent
from the observed running set (the query returned an empty set), is
nevertheless not selected: its last restart was recorded at the current
instant, so it is inside the 2^0 = 1 second backoff window and the cycle
issues no restart invocation, where the claim requires it to be deemed
eligible. -/
theorem healthy_eligibility_counterexample :
    (lookupContainer c9st.managed_containers "web").map
      ContainerState.consecutive_failures = some 0 ∧
    c9env.runningQuery = some [] ∧
    (check_and_restart_containers c5cfg c9env c9st 100).attempts = [] := by
  decide

/-- C9 amended: a managed record with consecutive_failures = 0 that is
absent from the observed running set is selected for a restart attempt
this cycle, provided the configured max_consecutive_failures is positive
and the record is not inside its backoff window (with a zero streak the
window is 2^0 = 1 second after its recorded last restart; a record with
no recorded last restart is never in backoff). -/
theorem healthy_down_selected (cfg : Config) (env : Env) (st : MonitorState)
    (now : Nat) (n : String) (s : ContainerState) (running : List String)
    (hload : ∀ c, env.loadConfig = some c → c.compose_files = cfg.compose_files)
    (hq : env.runningQuery = some running)
    (hmem : (n, s) ∈ st.managed_containers)
    (hdown : n ∉ running)
    (hcf : s.consecutive_failures = 0)
    (hmax : 0 < cfg.max_consecutive_failures)
    (hback : s.is_in_backoff now = false) :
    n ∈ (check_and_restart_containers cfg env st now).attempts := by
  have hne : st.managed_containers ≠ [] := List.ne_nil_of_mem hmem
  rw [check_eq_checkBody cfg env st now hload,
    checkBody_eq_of_query cfg env st now running hq hne]
  have hsr : should_restart_container cfg.max_consecutive_failures now s = true := by
    have h1 : ¬ (s.consecutive_failures ≥ cfg.max_consecutive_failures) := by
      rw [hcf]
      omega
    simp [should_restart_container, h1, hback]
  exact mem_selectedOf_names cfg st now running n s hmem hdown hsr

theorem healthy_down_selected_witness :
    "web" ∈ (check_and_restart_containers c5cfg c9env c5st 100).attempts :=
  healthy_down_selected c5cfg c9env c5st 100 "web"
    { compose_file := "/a/compose.yml", last_restart := none,
      restart_count := 0, consecutive_failures := 0 } []
    (fun c hc => by simp [c9env] at hc) rfl (by decide) (by decide) rfl
    (by decide) rfl

/-! ## C10: failed verification re-query records nothing -/

/-- C10: when the cycle proceeds to the restart pass (reload not
preempting, managed set nonempty, runtime query successful) and for a
selected container the restart invocation succeeds but the
post-settling-delay re-query itself fails, the cycle records neither
success nor failure for that container — its record, with restart_count,
consecutive_failures and last_restart, is exactly the one it entered the
cycle with — while the restart pass still issues an attempt for every
down-and-eligible container and the cycle returns successfully. -/
theorem verify_failure_records_nothing (cfg : Config) (env : Env)
    (st : MonitorState) (now : Nat) (n : String) (s : ContainerState)
    (running : List String)
    (hload : ∀ c, env.loadConfig = some c → c.compose_files = cfg.compose_files)
    (hq : env.runningQuery = some running)
    (hmem : (n, s) ∈ st.managed_containers)
    (_hdown : n ∉ running)
    (_hsr : should_restart_container cfg.max_consecutive_failures now s = true)
    (hrestart : env.restartOk n = true)
    (hverify : env.verifyQuery n = none) :
    lookupContainer
        (check_and_restart_containers cfg env st now).state.managed_containers n =
      lookupContainer st.managed_containers n ∧
    (∀ m t, (m, t) ∈ st.managed_containers → m ∉ running →
      should_restart_container cfg.max_consecutive_failures now t = true →
      m ∈ (check_and_restart_containers cfg env st now).attempts) ∧
    (check_and_restart_containers cfg env st now).failed = false := by
  have hne : st.managed_containers ≠ [] := List.ne_nil_of_mem hmem
  rw [check_eq_checkBody cfg env st now hload,
    checkBody_eq_of_query cfg env st now running hq hne]
  refine ⟨?_, ?_, rfl⟩
  · exact lookupContainer_foldl_applyAttempt env n hrestart hverify
      (selectedOf cfg st now running) st.managed_containers
  · intro m t hm hd hs
    exact mem_selectedOf_names cfg st now running m t hm hd hs

theorem verify_failure_records_nothing_witness :
    lookupContainer
        (check_and_restart_containers c5cfg c10env c10st 100).state.managed_containers
        "aaa" =
      lookupContainer c10st.managed_containers "aaa" ∧
    "aaa" ∈ (check_and_restart_containers c5cfg c10env c10st 100).attempts ∧
    "bbb" ∈ (check_and_restart_containers c5cfg c10env c10st 100).attempts ∧
    (check_and_restart_containers c5cfg c10env c10st 100).failed = false := by
  have h := verify_failure_records_nothing c5cfg c10env c10st 100 "aaa"
    { compose_file := "/a/compose.yml", last_restart := none,
      restart_count := 0, consecutive_failures := 0 } []
    (fun c hc => by simp [c10env] at hc) rfl (by decide) (by decide)
    (by decide) rfl rfl
  exact ⟨h.1,
    h.2.1 "aaa"
      { compose_file := "/a/compose.yml", last_restart := none,
        restart_count := 0, consecutive_failures := 0 }
      (by decide) (by decide) (by decide),
    h.2.1 "bbb"
      { compose_file := "/b/compose.yml", last_restart := none,
        restart_count := 0, consecutive_failures := 0 }
      (by decide) (by decide) (by decide),
    h.2.2⟩

end RustyPodmon
